import Mathlib

/-!
Verification development for the apple-turnover turn-lane analysis tool.

The definitions below are a shallow embedding of `index.js`.  JavaScript
values are modelled as follows:

* `undefined` is `Option.none`; a possibly-undefined string/number is an
  `Option String` / `Option ℚ`.
* JavaScript numbers are `ℚ` (the program only performs exact arithmetic on
  the inputs considered here); `NaN` produced by a failed `parseFloat` /
  `parseInt` is folded into `none` (both are falsy and neither compares
  equal to anything the program tests against).
* A thrown `TypeError` (e.g. a property access on `undefined`) is modelled
  with `Except Unit`, `.error ()` standing for the crash.
* `turf.length` / `turf.along` / `turf.bearing` are geometric library
  functions; the embedding is parametric in a segment-distance function
  `d : Point → Point → ℚ` and a two-point bearing function
  `bear : Point → Point → ℚ`, and models `turf.length` as the sum of
  segment distances and `turf.along` as arc-length interpolation.
  Concrete instances below use a planar metric on small axis-aligned
  configurations, where the spherical functions agree with the planar ones
  up to negligible error.

String primitives are re-implemented structurally on `List Char` so that
all definitions compute by structural recursion.
-/

/-! ### String and number primitives -/

/-- Splits a character list at a separator character, like `String.split` in
JavaScript with a single-character separator. -/
def splitOnCharAux (sep : Char) : List Char → List Char → List (List Char)
  | [], acc => [acc.reverse]
  | c :: rest, acc =>
    if c = sep then acc.reverse :: splitOnCharAux sep rest []
    else splitOnCharAux sep rest (c :: acc)

/-- JavaScript `s.split(sep)` for a one-character separator. -/
def splitOnChar (sep : Char) (s : String) : List String :=
  (splitOnCharAux sep s.toList []).map (fun l => String.mk l)

/-- Accumulates decimal digits into a natural number; `none` on a
non-digit character. -/
def digitsToNatAux : List Char → ℕ → Option ℕ
  | [], acc => some acc
  | c :: rest, acc =>
    if c.isDigit then digitsToNatAux rest (acc * 10 + (c.toNat - 48))
    else none

/-- Parses an unsigned decimal natural number from characters. -/
def parseNatChars (l : List Char) : Option ℕ :=
  if l = [] then none else digitsToNatAux l 0

/-- JavaScript `parseInt` restricted to the clean unsigned decimal numerals
that appear as OpenStreetMap lane counts; `none` models `NaN`. -/
def parseIntJS (s : String) : Option ℕ := parseNatChars s.toList

/-- Parses an unsigned decimal numeral with an optional fractional part. -/
def parseFloatChars (l : List Char) : Option ℚ :=
  match splitOnCharAux '.' l [] with
  | [a] => (parseNatChars a).map (fun n => (n : ℚ))
  | [a, b] =>
    match parseNatChars a, parseNatChars b with
    | some n, some f => some ((n : ℚ) + (f : ℚ) / (10 : ℚ) ^ b.length)
    | _, _ => none
  | _ => none

/-- JavaScript `parseFloat` restricted to the clean unsigned decimal
numerals that appear as OpenStreetMap speed values; `none` models `NaN`. -/
def parseFloatJS (s : String) : Option ℚ := parseFloatChars s.toList

/-- Whether `suffix` is a suffix of `s`, like JavaScript `s.endsWith`. -/
def endsWithStr (s suffix : String) : Bool :=
  suffix.toList.reverse.isPrefixOf s.toList.reverse

/-- Removes the last `n` characters of a string. -/
def stringDropRight (s : String) (n : ℕ) : String :=
  String.mk (s.toList.take (s.toList.length - n))

/-- Whether `needle` occurs as a contiguous substring of the character
list. -/
def containsSub (needle : List Char) : List Char → Bool
  | [] => needle.isPrefixOf []
  | c :: rest => needle.isPrefixOf (c :: rest) || containsSub needle rest

/-- JavaScript `hay.includes(needle)` on strings. -/
def strContains (hay needle : String) : Bool :=
  containsSub needle.toList hay.toList

/-- JavaScript `new Array(n).fill(s).join("|")`. -/
def joinPipe : List String → String
  | [] => ""
  | [s] => s
  | s :: rest => s ++ "|" ++ joinPipe rest

/-! ### JavaScript truthiness -/

/-- Truthiness of a possibly-undefined string: `undefined` and `""` are
falsy. -/
def truthyS : Option String → Bool
  | none => false
  | some s => s ≠ ""

/-- Truthiness of a possibly-NaN natural number: `NaN` and `0` are falsy. -/
def truthyN : Option ℕ → Bool
  | none => false
  | some n => n ≠ 0

/-- Truthiness of a possibly-undefined rational: `undefined` (also standing
for `NaN`) and `0` are falsy. -/
def truthyQ : Option ℚ → Bool
  | none => false
  | some q => q ≠ 0

/-- Truthiness of the maneuver `protected` field (`true`/`false`/
`undefined`). -/
def truthyB : Option Bool → Bool
  | some true => true
  | _ => false

/-- JavaScript `a || b` on possibly-undefined strings. -/
def jsOrS (a b : Option String) : Option String :=
  if truthyS a then a else b

/-- JavaScript `a || b` on possibly-undefined numbers. -/
def jsOrQ (a b : Option ℚ) : Option ℚ :=
  if truthyQ a then a else b

/-! ### Rational helpers (JavaScript `Math` functions) -/

/-- JavaScript `Math.abs`. -/
def qabs (q : ℚ) : ℚ := if q < 0 then -q else q

/-- JavaScript `Math.min` of two numbers. -/
def qmin (a b : ℚ) : ℚ := if a ≤ b then a else b

/-- Truncation of a rational toward zero, the rounding used by the
JavaScript `%` operator. -/
def ratTrunc (q : ℚ) : ℤ := if q < 0 then ⌈q⌉ else ⌊q⌋

/-- JavaScript `a % b` on numbers (remainder with the sign of the
dividend). -/
def jsMod (a b : ℚ) : ℚ := a - b * ((ratTrunc (a / b) : ℤ) : ℚ)

/-! ### Ways and tags -/

/-- A geographic coordinate, as stored in a GeoJSON line string. -/
abbrev Point := ℚ × ℚ

/-- An OpenStreetMap way: id, ordered node ids, the line geometry derived
from the nodes' coordinates (built by the load stage of `index.js`), and
the tag table. -/
structure Way where
  id : ℕ
  nodes : List ℕ
  line : List Point
  tags : List (String × String)
deriving DecidableEq

/-- Looks up a tag value, modelling `way.tags[key]`. -/
def lookupTag : List (String × String) → String → Option String
  | [], _ => none
  | (k, v) :: rest, key => if k = key then some v else lookupTag rest key

/-- The way's `highway` tag. -/
def Way.highway (w : Way) : Option String := lookupTag w.tags "highway"

/-- The way's `oneway` tag. -/
def Way.oneway (w : Way) : Option String := lookupTag w.tags "oneway"

/-- First node id of a list (`_.first`), with the dummy 0 for the empty
list (ways always have at least two nodes). -/
def headNat : List ℕ → ℕ
  | [] => 0
  | n :: _ => n

/-- Last node id of a list (`_.last`), with the dummy 0 for the empty
list. -/
def lastNat : List ℕ → ℕ
  | [] => 0
  | [n] => n
  | _ :: rest => lastNat rest

/-- Direction string selected by the progression sign. -/
def directionOf (progression : ℤ) : String :=
  if progression > 0 then "forward" else "backward"

/-- `getLaneCount` from `index.js`: the number of lanes in one direction.
Tries `lanes:forward`/`lanes:backward`, then the total `lanes` tag halved
(floor) unless the way is one-way, defaulting to 1. -/
def getLaneCount (way : Way) (progression : ℤ) : ℕ :=
  let dir := directionOf progression
  let lc1 := (lookupTag way.tags ("lanes:" ++ dir)).bind parseIntJS
  let lc :=
    if truthyN lc1 then lc1
    else
      let l2 := (lookupTag way.tags "lanes").bind parseIntJS
      if lookupTag way.tags "oneway" ≠ some "yes" ∧
          lookupTag way.tags "oneway" ≠ some "-1" then
        l2.map (· / 2)
      else l2
  match lc with
  | some n => if n = 0 then 1 else n
  | none => 1

/-- `getTagsForProgression` from `index.js`: resolves a tag with precedence
`tag:lanes:dir` > `tag:lanes` > `tag:dir` > `tag`, replicating a scalar
value across the lane count (pipe-delimited) when a lane count is given. -/
def getTagsForProgression (tag : String) (way : Way) (progression : ℤ)
    (laneCount : Option ℕ) : Option String :=
  let dir := directionOf progression
  let t1 := jsOrS (lookupTag way.tags (tag ++ ":lanes:" ++ dir))
      (lookupTag way.tags (tag ++ ":lanes"))
  if truthyS t1 then t1
  else
    let t2 := jsOrS (lookupTag way.tags (tag ++ ":" ++ dir))
        (lookupTag way.tags tag)
    if truthyS t2 ∧ truthyN laneCount then
      t2.map (fun s => joinPipe (List.replicate (laneCount.getD 0) s))
    else t2

/-- `normalizeSpeed` from `index.js`: a falsy input is returned as is; a
string ending in `" mph"` is parsed and converted by `* 1609.344 / 3600`;
any other value is parsed and multiplied by 1000. -/
def normalizeSpeed (speed : Option String) : Option ℚ :=
  match speed with
  | none => none
  | some s =>
    if s = "" then none
    else if endsWithStr s " mph" then
      (parseFloatJS (stringDropRight s 4)).map
        (fun q => q * ((1609344 : ℚ) / 1000) / (60 * 60))
    else (parseFloatJS s).map (fun q => q * 1000)

/-! ### Lane decoding -/

/-- A lane's change-restriction pair: can-change-to-the-left and
can-change-to-the-right, each a tri-state (`none` models the `undefined`
written by the road-edge reset). -/
abbrev ChangePair := Option Bool × Option Bool

/-- The `switch` over a single `change:lanes` value in `index.js`.  The
`default` branch executes `console.assert(false, …)` and falls off the end
of the callback, so the mapped entry is `undefined`: modelled as `none`. -/
def decodeChangeTag (tag : String) : Option ChangePair :=
  if tag = "yes" then some (some true, some true)
  else if tag = "no" then some (some false, some false)
  else if tag = "not_left" ∨ tag = "only_right" then some (some false, some true)
  else if tag = "not_right" ∨ tag = "only_left" then some (some true, some false)
  else none

/-- `_.first(changeTags)[0] = undefined`: writes `undefined` into the left
component of the first entry; if the first entry itself is `undefined`
(unrecognized tag), the subscript assignment throws a `TypeError`. -/
def setHeadLeftNone : List (Option ChangePair) → Except Unit (List (Option ChangePair))
  | [] => .error ()
  | none :: _ => .error ()
  | some (_, r) :: rest => .ok (some (none, r) :: rest)

/-- `_.last(changeTags)[1] = undefined`: same for the right component of
the last entry. -/
def setLastRightNone : List (Option ChangePair) → Except Unit (List (Option ChangePair))
  | [] => .error ()
  | [none] => .error ()
  | [some (l, _)] => .ok [some (l, none)]
  | c :: rest => (setLastRightNone rest).map (fun rest2 => c :: rest2)

/-- Applies both road-edge resets, in the order `index.js` performs them. -/
def applyEdgeSentinels (l : List (Option ChangePair)) :
    Except Unit (List (Option ChangePair)) := do
  let l1 ← setHeadLeftNone l
  setLastRightNone l1

/-- A lane as modelled by `index.js`: the `;`-separated turn indications
and the decoded change pair (`none` when no change data exists for the
lane). -/
structure Lane where
  turn : List String
  change : Option ChangePair
deriving DecidableEq

/-- Builds the lane models, `_.zip(turnTags, changeTags)`.  When there is
no `change` tag the change entry of every lane is `undefined`.  The caller
guarantees equal lengths in the decoded case. -/
def lanesFrom (turnTags : List (List String)) :
    Option (List (Option ChangePair)) → List Lane
  | none => turnTags.map (fun t => ⟨t, none⟩)
  | some cs => turnTags.zipWith (fun t c => ⟨t, c⟩) cs

/-- The turn-bucket membership tests of `index.js` (`slight_left` counts as
`left`, `slight_right` as `right`). -/
def bucketOf (lanes : List Lane) (turn : String) : List Lane :=
  if turn = "reverse" then lanes.filter (fun l => l.turn.contains "reverse")
  else if turn = "left" then
    lanes.filter (fun l => l.turn.contains "left" || l.turn.contains "slight_left")
  else if turn = "right" then
    lanes.filter (fun l => l.turn.contains "right" || l.turn.contains "slight_right")
  else []

/-- `lane.change && !lane.change[0]`: the lane has change data and its
can-change-left entry is falsy (`false` or the `undefined` road-edge
reset). -/
def falsyCCL (l : Lane) : Bool :=
  match l.change with
  | none => false
  | some c => c.1 ≠ some true

/-- `lane.change && !lane.change[1]`, for the can-change-right entry. -/
def falsyCCR (l : Lane) : Bool :=
  match l.change with
  | none => false
  | some c => c.2 ≠ some true

/-- `turnIsProtected` from `index.js`: the bucket is non-empty, some lane
has a solid line on its left, and some lane has a solid line on its
right. -/
def turnIsProtectedB (bucket : List Lane) : Bool :=
  !bucket.isEmpty && bucket.any falsyCCL && bucket.any falsyCCR

/-- `lane.change === undefined` for a bucket member. -/
def changeAbsent (l : Lane) : Bool := l.change = none

/-- `lane.change && lane.change[0] === undefined`. -/
def cclIsNone (l : Lane) : Bool :=
  match l.change with
  | none => false
  | some c => c.1 = none

/-- `lane.change && lane.change[1] === undefined`. -/
def ccrIsNone (l : Lane) : Bool :=
  match l.change with
  | none => false
  | some c => c.2 = none

/-- The `_.mapValues` post-processing of a turn's protection value in
`index.js`: an empty bucket yields `undefined`; a bucket whose outer
member lanes carry no change data, or whose change data is only the
road-edge reset, is forced to `undefined`; otherwise the raw protection
value is kept. -/
def protectionPost (bucket : List Lane) (raw : Bool) : Option Bool :=
  match bucket.head?, bucket.getLast? with
  | some lm, some rm =>
    if changeAbsent lm && changeAbsent rm then none
    else if cclIsNone lm && ccrIsNone rm then none
    else some raw
  | _, _ => none

/-- The protection tri-state `index.js` stores on an emitted maneuver for
one of the `reverse`/`left`/`right` buckets. -/
def protectionValue (bucket : List Lane) : Option Bool :=
  protectionPost bucket (turnIsProtectedB bucket)

/-! ### Maneuver extraction -/

/-- A single-way maneuver as produced by `getManeuvers` in `index.js`.
The source's `protected` property is called `prot` here because
`protected` is a reserved word in Lean. -/
structure Maneuver where
  fromWay : ℕ
  progression : ℤ
  fromNode : ℕ
  viaNode : ℕ
  line : List Point
  turn : String
  lanes : ℕ
  prot : Option Bool
  maxSpeed : Option ℚ
deriving DecidableEq

/-- Builds the maneuver object emitted for one turn type. -/
def mkManeuver (way : Way) (progression : ℤ) (mLine : List Point)
    (maxSpeed : Option ℚ) (lanes : List Lane) (turn : String) : Maneuver :=
  { fromWay := way.id
    progression := progression
    fromNode := if progression > 0 then headNat way.nodes else lastNat way.nodes
    viaNode := if progression > 0 then lastNat way.nodes else headNat way.nodes
    line := mLine
    turn := turn
    lanes := (bucketOf lanes turn).length
    prot := protectionValue (bucketOf lanes turn)
    maxSpeed := maxSpeed }

/-- The maneuvers emitted from a decoded lane model: one per non-empty
`reverse`/`left`/`right` bucket (never `through` or `none`). -/
def emitManeuvers (way : Way) (progression : ℤ) (lanes : List Lane) : List Maneuver :=
  let mLine := if progression < 0 then way.line.reverse else way.line
  let maxSpeed := normalizeSpeed
      (jsOrS (getTagsForProgression "maxspeed:advisory" way progression none)
             (getTagsForProgression "maxspeed" way progression none))
  (["reverse", "left", "right"].filter
      (fun t => !(bucketOf lanes t).isEmpty)).map
    (mkManeuver way progression mLine maxSpeed lanes)

/-- `getManeuvers` from `index.js`: decodes the turn and change tags of a
way in one direction and emits the corresponding maneuvers.  `.error ()`
models the `TypeError` thrown when an unrecognized change tag occupies the
first or last lane (the road-edge reset then subscripts `undefined`). -/
def getManeuvers (way : Way) (progression : ℤ) : Except Unit (List Maneuver) :=
  let laneCount := getLaneCount way progression
  let turnTags? := getTagsForProgression "turn" way progression (some laneCount)
  if truthyS turnTags? = false then .ok []
  else
    let turnTags := (splitOnChar '|' (turnTags?.getD "")).map
        (fun t => splitOnChar ';' t)
    let changeStr? := getTagsForProgression "change" way progression (some laneCount)
    if truthyS changeStr? = false then .ok (emitManeuvers way progression (lanesFrom turnTags none))
    else
      match applyEdgeSentinels
          ((splitOnChar '|' (changeStr?.getD "")).map decodeChangeTag) with
      | .error e => .error e
      | .ok sent =>
        if turnTags.length ≠ sent.length then .ok []
        else .ok (emitManeuvers way progression (lanesFrom turnTags (some sent)))

/-! ### The turn-channel skip and the extraction loop -/

/-- The turn-channel test in the `ways.forEach` loop of `index.js`:
`(way.tags.turn || way.tags.lanes === "1") && (way.tags.oneway === "yes" ||
way.tags.oneway === "-1") && way.tags.highway.includes("_link")`.  The
`includes` call throws when the `highway` tag is absent, but JavaScript's
short-circuit evaluation only reaches it when the first two conjuncts are
truthy. -/
def turnChannelGuard (way : Way) : Except Unit Bool :=
  if truthyS (lookupTag way.tags "turn") ∨ lookupTag way.tags "lanes" = some "1" then
    if lookupTag way.tags "oneway" = some "yes" ∨
        lookupTag way.tags "oneway" = some "-1" then
      match way.highway with
      | none => .error ()
      | some h => .ok (strContains h "_link")
    else .ok false
  else .ok false

/-- The `ways.forEach` extraction loop of `index.js`: skips turn channels,
then extracts maneuvers for each legal direction of travel
(`!way.tags.oneway || way.tags.oneway === "yes"` for forward,
`!way.tags.oneway || way.tags.oneway === "-1"` for backward). -/
def extractManeuvers : List Way → Except Unit (List Maneuver)
  | [] => .ok []
  | w :: rest => do
    let skip ← turnChannelGuard w
    let ms ←
      if skip then pure []
      else do
        let ow := lookupTag w.tags "oneway"
        let fwd ← if truthyS ow = false ∨ ow = some "yes" then getManeuvers w 1 else pure []
        let bwd ← if truthyS ow = false ∨ ow = some "-1" then getManeuvers w (-1) else pure []
        pure (fwd ++ bwd)
    let others ← extractManeuvers rest
    pure (ms ++ others)

deriving instance DecidableEq for Except

/-! ### Line geometry -/

/-- `turf.length(line, {units: "meters"})`: the sum of the segment
distances, parametric in the distance function `d`. -/
def lineLength (d : Point → Point → ℚ) : List Point → ℚ
  | p :: q :: rest => d p q + lineLength d (q :: rest)
  | _ => 0

/-- Straight-line interpolation between two points. -/
def lerp (p q : Point) (t : ℚ) : Point :=
  (p.1 + t * (q.1 - p.1), p.2 + t * (q.2 - p.2))

/-- `turf.along(line, offset, {units: "meters"})`: the point at the given
arc-length offset along the line, clamped to the final vertex. -/
def along (d : Point → Point → ℚ) : List Point → ℚ → Point
  | [], _ => (0, 0)
  | [p], _ => p
  | p :: q :: rest, off =>
    let seg := d p q
    if off ≤ seg then (if seg = 0 then p else lerp p q (off / seg))
    else along d (q :: rest) (off - seg)

/-- `maxLengthForTurnAngle` from `index.js`. -/
def maxLengthForTurnAngle : ℚ := 36

/-! ### The connection linker -/

/-- The two points `index.js` passes to `turf.bearing` when computing the
"absolute bearing at the end of the maneuver" for the maneuver being
linked: offsets `0` and `min(wayLength, 36)` for forward progression, the
same offsets swapped for backward progression. -/
def exitBearingPoints (d : Point → Point → ℚ) (wayLine : List Point)
    (progression : ℤ) : Point × Point :=
  let wayLength := lineLength d wayLine
  if progression > 0 then
    (along d wayLine 0, along d wayLine (qmin wayLength maxLengthForTurnAngle))
  else
    (along d wayLine (qmin wayLength maxLengthForTurnAngle), along d wayLine 0)

/-- The two points `index.js` passes to `turf.bearing` for a connected
candidate: near the candidate line's start for forward progression, near
its end for backward, capped by both ways' lengths and 36 m. -/
def entryBearingPoints (d : Point → Point → ℚ) (wayLength : ℚ)
    (cLine : List Point) (progression : ℤ) : Point × Point :=
  let cLen := lineLength d cLine
  if progression > 0 then
    (along d cLine 0,
     along d cLine (qmin wayLength (qmin cLen maxLengthForTurnAngle)))
  else
    (along d cLine cLen,
     along d cLine (cLen - qmin wayLength (qmin cLen maxLengthForTurnAngle)))

/-- The "wrap" `index.js` applies to a bearing difference: subtract or add
180 (not 360) when the difference leaves `(-180, 180)`. -/
def jsWrapDelta (delta : ℚ) : ℚ :=
  if delta > 180 then delta - 180
  else if delta < -180 then delta + 180
  else delta

/-- The 30-degree cut in the linker: a candidate is removed when the
(js-wrapped) bearing delta exceeds 30 in absolute value. -/
def bearingRemoves (delta : ℚ) : Bool := qabs delta > 30

/-- `wrap(value, min, max)` from the sibling revision of `index.js`
(`part_000`): proper range wrapping, mapping the lower edge to the upper
one, so `wrapRange v (-180) 180` lands in `(-180, 180]`. -/
def wrapRange (value vmin vmax : ℚ) : ℚ :=
  let range := vmax - vmin
  let wrapped := jsMod (jsMod (value - vmin) range + range) range + vmin
  if wrapped = vmin then vmax else wrapped

/-- Looks a way up by id, modelling `waysById[id]`. -/
def findWay : List Way → ℕ → Option Way
  | [], _ => none
  | w :: rest, i => if w.id = i then some w else findWay rest i

/-- Monadic `map` over `Except Unit`, propagating the first crash. -/
def mapME {α β : Type} (f : α → Except Unit β) : List α → Except Unit (List β)
  | [] => .ok []
  | a :: as => do
    let b ← f a
    let bs ← mapME f as
    .ok (b :: bs)

/-- Monadic filter over `Except Unit`, keeping elements on which the
predicate returns `true` and propagating the first crash. -/
def filterME {α : Type} (f : α → Except Unit Bool) : List α → Except Unit (List α)
  | [] => .ok []
  | a :: as => do
    let b ← f a
    let rest ← filterME f as
    .ok (if b then a :: rest else rest)

/-- `jsIncludes h "_link"` models `h.includes("_link")` where `h` may be
`undefined ` (a missing `highway` tag), in which case the property access
throws. -/
def jsIncludes : Option String → String → Except Unit Bool
  | none, _ => .error ()
  | some s, sub => .ok (strContains s sub)

/-- The `_.remove` callback in the linker's road-class and protection
stage: a candidate is removed when the maneuver's way is not `service` but
the candidate's is, or the maneuver's way is not a `_link` but the
candidate's is, or the maneuver is protected while the candidate is
explicitly unprotected.  Short-circuit evaluation is modelled exactly:
`way.tags.highway.includes` is only reached when the `service` disjunct is
false. -/
def removePred (way cw : Way) (m c : Maneuver) : Except Unit Bool :=
  if way.highway ≠ some "service" ∧ cw.highway = some "service" then .ok true
  else do
    let wayLink ← jsIncludes way.highway "_link"
    let b ← if !wayLink then jsIncludes cw.highway "_link" else pure false
    if b then .ok true
    else .ok (truthyB m.prot && (c.prot = some false))

/-- The candidate gathering filter of the linker: shares a node, distinct
way, same turn type. -/
def gatherCandidates (pool : List Maneuver) (m : Maneuver) : List Maneuver :=
  pool.filter (fun o =>
    o.fromNode = m.viaNode ∧ o.fromWay ≠ m.fromWay ∧ o.turn = m.turn)

/-- The road-class and protection removal stage. -/
def removalStage (ways : List Way) (way : Way) (m : Maneuver)
    (cands : List Maneuver) : Except Unit (List Maneuver) :=
  filterME (fun c =>
    match findWay ways c.fromWay with
    | none => .error ()
    | some cw => (removePred way cw m c).map (fun r => !r)) cands

/-- The bearing filter stage: computes the maneuver's exit bearing and
each candidate's entry bearing, then removes candidates whose js-wrapped
delta exceeds 30 degrees in absolute value. -/
def bearingStage (d : Point → Point → ℚ) (bear : Point → Point → ℚ)
    (ways : List Way) (way : Way) (m : Maneuver) (cands : List Maneuver) :
    Except Unit (List Maneuver) := do
  let pts := exitBearingPoints d way.line m.progression
  let bearing := bear pts.1 pts.2
  let deltas ← mapME (fun c =>
    match findWay ways c.fromWay with
    | none => .error ()
    | some cw =>
      let e := entryBearingPoints d (lineLength d way.line) cw.line c.progression
      .ok (jsWrapDelta (bear e.1 e.2 - bearing))) cands
  .ok (((cands.zip deltas).filter (fun p => !bearingRemoves p.2)).map Prod.fst)

/-- The same-road-class narrowing: applied only when more than one
candidate remains, and only adopted when it leaves at least one
candidate. -/
def classNarrow (ways : List Way) (way : Way) (cands : List Maneuver) :
    Except Unit (List Maneuver) :=
  if cands.length > 1 then do
    let sc ← filterME (fun c =>
      match findWay ways c.fromWay with
      | none => .error ()
      | some cw => .ok (cw.highway = way.highway)) cands
    pure (if sc.isEmpty then cands else sc)
  else pure cands

/-- The same-name narrowing: applied only when more than one candidate
still remains, comparing the directionally resolved `name` tags. -/
def nameNarrow (ways : List Way) (way : Way) (m : Maneuver)
    (cands : List Maneuver) : Except Unit (List Maneuver) :=
  if cands.length > 1 then do
    let sn ← filterME (fun c =>
      match findWay ways c.fromWay with
      | none => .error ()
      | some cw =>
        .ok (getTagsForProgression "name" cw c.progression (some c.lanes) =
          getTagsForProgression "name" way m.progression (some m.lanes))) cands
    pure (if sn.isEmpty then cands else sn)
  else pure cands

/-- The candidates that survive every stage of the linker for one
maneuver.  A missing `waysById` entry for the maneuver's way is a crash:
`index.js` dereferences `way.tags`/`way.line` unconditionally. -/
def finalCandidates (d bear : Point → Point → ℚ) (ways : List Way)
    (pool : List Maneuver) (m : Maneuver) : Except Unit (List Maneuver) :=
  match findWay ways m.fromWay with
  | none => .error ()
  | some way => do
    let cands := gatherCandidates pool m
    let cands ← removalStage ways way m cands
    let cands ← bearingStage d bear ways way m cands
    let cands ← classNarrow ways way cands
    let cands ← nameNarrow ways way m cands
    pure cands

/-- The outcome of the linker for one maneuver: whether the ambiguity
assertion fired (`connectedManeuvers.length < 2` violated) and the `next`
assignment (`connectedManeuvers[0]` whenever any candidate remains). -/
structure LinkResult where
  ambiguous : Bool
  next : Option Maneuver
deriving DecidableEq

/-- The tail of the linker loop in `index.js`: report ambiguity when at
least two candidates remain, and link to the first remaining candidate
whenever the list is non-empty. -/
def linkStep (d bear : Point → Point → ℚ) (ways : List Way)
    (pool : List Maneuver) (m : Maneuver) : Except Unit LinkResult :=
  (finalCandidates d bear ways pool m).map
    (fun cs => ⟨decide (1 < cs.length), cs.head?⟩)

/-! ### The maneuver flattener -/

/-- A maneuver in the multi-way form assumed after the preparation pass
(`fromWays`/`progressions` sequences replacing `fromWay`/`progression`). -/
structure MWManeuver where
  fromWays : List ℕ
  progressions : List ℤ
  fromNode : ℕ
  viaNode : ℕ
  line : List Point
  turn : String
  lanes : ℕ
  prot : Option Bool
  protectionNode : Option ℕ
  maxSpeed : Option ℚ
deriving DecidableEq

/-- The preparation pass `maneuvers.map(…)` of `index.js`: wraps a
single-way maneuver into a singleton chain. -/
def toMW (m : Maneuver) : MWManeuver :=
  { fromWays := [m.fromWay]
    progressions := [m.progression]
    fromNode := m.fromNode
    viaNode := m.viaNode
    line := m.line
    turn := m.turn
    lanes := m.lanes
    prot := m.prot
    protectionNode := none
    maxSpeed := m.maxSpeed }

/-- The merge body of `flattenManeuver` in `index.js`, combining a
maneuver with its (already flattened) successor: concatenates the way and
progression sequences and the geometries, adopts the successor's via node,
takes the maximum lane count, records or propagates the protection-begin
node, and blends the max speeds weighted by the two segment lengths when
both are truthy, falling back to `maneuver.maxSpeed || next.maxSpeed`
otherwise. -/
def mergeManeuver (d : Point → Point → ℚ) (m nxt : MWManeuver) : MWManeuver :=
  let length := lineLength d m.line
  let nextLength := lineLength d nxt.line
  { fromWays := m.fromWays ++ nxt.fromWays
    progressions := m.progressions ++ nxt.progressions
    fromNode := m.fromNode
    viaNode := nxt.viaNode
    line := m.line ++ nxt.line
    turn := m.turn
    lanes := max m.lanes nxt.lanes
    prot := m.prot
    protectionNode :=
      if !truthyB m.prot && truthyB nxt.prot then some nxt.fromNode
      else nxt.protectionNode
    maxSpeed :=
      if truthyQ m.maxSpeed ∧ truthyQ nxt.maxSpeed then
        some ((length * m.maxSpeed.getD 0 + nextLength * nxt.maxSpeed.getD 0) /
          (length + nextLength))
      else jsOrQ m.maxSpeed nxt.maxSpeed }

/-- `flattenManeuver` applied to an explicit finite chain: the head is
merged with the recursively flattened tail (the source recurses into the
`next` maneuver before merging). -/
def flattenChain (d : Point → Point → ℚ) (m : MWManeuver) :
    List MWManeuver → MWManeuver
  | [] => m
  | n :: rest => mergeManeuver d m (flattenChain d n rest)

/-- The `next` chain of maneuver indices starting at `i`, cut off by the
fuel bound: follows `nxt` until it is unset. -/
def nextChain (nxt : ℕ → Option ℕ) : ℕ → ℕ → List ℕ
  | 0, i => [i]
  | fuel + 1, i =>
    match nxt i with
    | none => [i]
    | some j => i :: nextChain nxt fuel j

/-- `flattenManeuver` as a fuelled recursion over a `next` map on
maneuver indices: `none` means the recursion exceeded the fuel (which is
what a cyclic `next` chain forces for every fuel). -/
def flattenManeuverFuel (d : Point → Point → ℚ) (getM : ℕ → MWManeuver)
    (nxt : ℕ → Option ℕ) : ℕ → ℕ → Option MWManeuver
  | fuel, i =>
    match nxt i with
    | none => some (getM i)
    | some j =>
      match fuel with
      | 0 => none
      | fuel' + 1 =>
        (flattenManeuverFuel d getM nxt fuel' j).map
          (fun flatNext => mergeManeuver d (getM i) flatNext)

/-! ### Definitions written from the specification's words

The following definitions do not model `index.js`; each follows the
wording of the specification (or of a claim derived from it) and is used
only to compare the specified behavior with the implemented one. -/

/-- Written from the spec (4.2) and claim C4: the exit bearing of a
maneuver is measured at the via-node end of the line, between the point
offset `min(length, 36)` meters into the interior from that end and the
via-node endpoint itself; the progression sign selects which literal
endpoint of the stored coordinate sequence is the via-node end. -/
def specViaEndBearingPoints (d : Point → Point → ℚ) (line : List Point)
    (progression : ℤ) : Point × Point :=
  let len := lineLength d line
  if progression > 0 then
    (along d line (len - qmin len maxLengthForTurnAngle), along d line len)
  else
    (along d line (qmin len maxLengthForTurnAngle), along d line 0)

/-- Written from claim C8: a way is a turn channel exactly when it has an
explicit turn tag or a single lane, is one-way, and its highway
classification is `service` or contains `_link`. -/
def claimTurnChannel (way : Way) : Bool :=
  (truthyS (lookupTag way.tags "turn") || lookupTag way.tags "lanes" = some "1") &&
  (lookupTag way.tags "oneway" = some "yes" || lookupTag way.tags "oneway" = some "-1") &&
  (way.highway = some "service" ||
    (match way.highway with
     | some h => strContains h "_link"
     | none => false))

/-- Written from claim C7 and spec 4.1: an unrecognized change tag is
reported and the lane is treated conservatively as unrestricted, i.e. as
if it had been tagged `yes`. -/
def specChangeDecode (tag : String) : ChangePair :=
  match decodeChangeTag tag with
  | some c => c
  | none => (some true, some true)

/-- Written from claim C3: some lane in the bucket has
can-change-left = `false`. -/
def claimSomeChangeLeftFalse (bucket : List Lane) : Bool :=
  bucket.any (fun l =>
    match l.change with
    | some c => c.1 = some false
    | none => false)

/-- Written from claim C3: some lane in the bucket has
can-change-right = `false`. -/
def claimSomeChangeRightFalse (bucket : List Lane) : Bool :=
  bucket.any (fun l =>
    match l.change with
    | some c => c.2 = some false
    | none => false)

/-- Written from claim C3: the bucket's leftmost and rightmost member
lanes' change data are entirely unset, or only bound by the road-edge
sentinel. -/
def claimProtExcep (bucket : List Lane) : Bool :=
  match bucket.head?, bucket.getLast? with
  | some lm, some rm =>
    (changeAbsent lm && changeAbsent rm) || (cclIsNone lm && ccrIsNone rm)
  | _, _ => false

/-- The condition under which `index.js` forces a (non-empty) bucket's
protection value to `undefined`, factored out of `protectionPost` for the
amended statement of claim C3.  It coincides with `claimProtExcep`. -/
def protForcedUnknown (bucket : List Lane) : Bool :=
  match bucket.head?, bucket.getLast? with
  | some lm, some rm =>
    (changeAbsent lm && changeAbsent rm) || (cclIsNone lm && ccrIsNone rm)
  | _, _ => false

/-! ### Concrete instances

`dEx` instantiates the segment-distance parameter with a planar taxicab
metric (coordinates are read directly in meters); every concrete line
below is axis-aligned segment by segment, where the taxicab and Euclidean
lengths agree.  `bearEx` instantiates the bearing parameter on
axis-aligned point pairs (90 = east, -90 = west, 0 = north, 180 = south),
matching the spherical bearing of such pairs at small scale. -/

/-- Planar taxicab distance, in meters. -/
def dEx (p q : Point) : ℚ := qabs (q.1 - p.1) + qabs (q.2 - p.2)

/-- Axis-aligned bearing: east 90, west -90, north 0, south 180. -/
def bearEx (p q : Point) : ℚ :=
  if p.2 = q.2 ∧ p.1 < q.1 then 90
  else if p.2 = q.2 ∧ q.1 < p.1 then -90
  else if p.1 = q.1 ∧ p.2 < q.2 then 0
  else if p.1 = q.1 ∧ q.2 < p.2 then 180
  else 45

/-- Last point of a line. -/
def lastPoint : List Point → Option Point
  | [] => none
  | [p] => some p
  | _ :: rest => lastPoint rest

/-! #### Instance for claim C1 (ambiguous linkage) -/

def wayC1a : Way :=
  ⟨1, [1, 2], [(0, 0), (100, 0)],
    [("highway", "residential"), ("oneway", "yes"), ("turn:lanes", "left")]⟩

def wayC1b : Way :=
  ⟨2, [2, 3], [(100, 0), (200, 0)],
    [("highway", "residential"), ("oneway", "yes"), ("turn:lanes", "left")]⟩

def wayC1c : Way :=
  ⟨3, [2, 4], [(100, 0), (180, 0)],
    [("highway", "residential"), ("oneway", "yes"), ("turn:lanes", "left")]⟩

def waysC1 : List Way := [wayC1a, wayC1b, wayC1c]

def mC1a : Maneuver := ⟨1, 1, 1, 2, [(0, 0), (100, 0)], "left", 1, none, none⟩
def mC1b : Maneuver := ⟨2, 1, 2, 3, [(100, 0), (200, 0)], "left", 1, none, none⟩
def mC1c : Maneuver := ⟨3, 1, 2, 4, [(100, 0), (180, 0)], "left", 1, none, none⟩

def poolC1 : List Maneuver := [mC1a, mC1b, mC1c]

/-! #### Instance for claim C6 (cyclic linkage): two mutually connecting
ways, each bending so that both start out eastward. -/

def wayC6a : Way :=
  ⟨1, [1, 11, 2], [(0, 0), (100, 0), (100, 30)],
    [("highway", "residential"), ("oneway", "yes"), ("turn:lanes", "left")]⟩

def wayC6b : Way :=
  ⟨2, [2, 12, 1], [(100, 30), (200, 30), (0, 0)],
    [("highway", "residential"), ("oneway", "yes"), ("turn:lanes", "left")]⟩

def waysC6 : List Way := [wayC6a, wayC6b]

def mC6a : Maneuver :=
  ⟨1, 1, 1, 2, [(0, 0), (100, 0), (100, 30)], "left", 1, none, none⟩
def mC6b : Maneuver :=
  ⟨2, 1, 2, 1, [(100, 30), (200, 30), (0, 0)], "left", 1, none, none⟩

def poolC6 : List Maneuver := [mC6a, mC6b]

/-! #### Instance for claim C3 (protection from a sentinel-freed lane) -/

def wayC3 : Way :=
  ⟨1, [1, 2], [(0, 0), (100, 0)],
    [("highway", "residential"), ("oneway", "yes"),
     ("turn:lanes", "left|left|right"), ("change:lanes", "yes|not_right|yes")]⟩

def laneC3a : Lane := ⟨["left"], some (none, some true)⟩
def laneC3b : Lane := ⟨["left"], some (some true, some false)⟩
def laneC3c : Lane := ⟨["right"], some (some true, none)⟩

def mC3left : Maneuver :=
  ⟨1, 1, 1, 2, [(0, 0), (100, 0)], "left", 2, some true, none⟩
def mC3right : Maneuver :=
  ⟨1, 1, 1, 2, [(0, 0), (100, 0)], "right", 1, some false, none⟩

/-! #### Instances for claim C7 (unrecognized change tag) -/

def wayC7a : Way :=
  ⟨1, [1, 2], [(0, 0), (100, 0)],
    [("highway", "residential"), ("oneway", "yes"),
     ("turn:lanes", "left|left"), ("change:lanes", "foo|yes")]⟩

def wayC7b : Way :=
  ⟨2, [1, 2], [(0, 0), (100, 0)],
    [("highway", "residential"), ("oneway", "yes"),
     ("turn:lanes", "through|left|through"), ("change:lanes", "yes|foo|yes")]⟩

def mC7left : Maneuver := ⟨2, 1, 1, 2, [(0, 0), (100, 0)], "left", 1, none, none⟩

/-! #### Instances for claim C8 (turn-channel heuristic) -/

def wayC8 : Way :=
  ⟨1, [1, 2], [(0, 0), (100, 0)],
    [("highway", "service"), ("oneway", "yes"), ("lanes", "1"),
     ("turn:lanes", "right")]⟩

def mC8 : Maneuver := ⟨1, 1, 1, 2, [(0, 0), (100, 0)], "right", 1, none, none⟩

def wayC8w : Way :=
  ⟨9, [1, 2], [(0, 0), (100, 0)],
    [("highway", "tertiary_link"), ("oneway", "yes"), ("lanes", "1")]⟩

/-! #### Instance for claim C10 (way without a highway tag) -/

def wayC10a : Way :=
  ⟨1, [1, 2], [(0, 0), (100, 0)], [("turn:lanes", "left"), ("name", "A Street")]⟩

def wayC10b : Way :=
  ⟨2, [2, 3], [(100, 0), (200, 0)],
    [("highway", "residential"), ("oneway", "yes"), ("turn:lanes", "left")]⟩

def waysC10 : List Way := [wayC10a, wayC10b]

def mC10f : Maneuver := ⟨1, 1, 1, 2, [(0, 0), (100, 0)], "left", 1, none, none⟩
def mC10bk : Maneuver := ⟨1, -1, 2, 1, [(100, 0), (0, 0)], "left", 1, none, none⟩
def mC10r : Maneuver := ⟨2, 1, 2, 3, [(100, 0), (200, 0)], "left", 1, none, none⟩

def poolC10 : List Maneuver := [mC10f, mC10bk, mC10r]

/-! #### Instances for claim C2 (merging a two-element chain) -/

def mwC2r : MWManeuver :=
  ⟨[1], [1], 1, 2, [(0, 0), (0, 100)], "left", 1, none, none, some 0⟩
def mwC2s : MWManeuver :=
  ⟨[2], [1], 2, 3, [(0, 100), (0, 200)], "left", 1, none, none, some 10⟩

def mwC2w1 : MWManeuver :=
  ⟨[1], [1], 1, 2, [(0, 0), (0, 100)], "left", 1, none, none, some 5⟩
def mwC2w2 : MWManeuver :=
  ⟨[2], [1], 2, 3, [(0, 100), (0, 200)], "left", 2, none, none, some 10⟩

/-! #### Instance for claim C4 (bearing measured at the wrong end) -/

def lineC4 : List Point := [(0, 0), (0, 100), (100, 100)]

/-! #### Instance for claim C6's amended statement -/

def nxtW : ℕ → Option ℕ := fun i => if i = 0 then some 1 else none
def getW : ℕ → MWManeuver := fun _ => toMW mC6a


/-! ### Helper lemmas -/

@[simp]
theorem exceptBindOk {α β : Type} (a : α) (f : α → Except Unit β) :
    (Except.ok a : Except Unit α) >>= f = f a := rfl

@[simp]
theorem exceptBindErr {α β : Type} (f : α → Except Unit β) :
    (Except.error () : Except Unit α) >>= f = Except.error () := rfl

@[simp]
theorem exceptPureEq {α : Type} (a : α) :
    (pure a : Except Unit α) = Except.ok a := rfl

/-- Concatenating two lines that share their junction point adds their
lengths, provided the distance function is reflexive-zero (as any
distance is). -/
theorem lineLength_append (d : Point → Point → ℚ) (hd : ∀ p, d p p = 0) :
    ∀ (a b : List Point) (v : Point),
      lastPoint a = some v → b.head? = some v →
      lineLength d (a ++ b) = lineLength d a + lineLength d b
  | [], _, v, ha, _ => by simp [lastPoint] at ha
  | [x], b, v, ha, hb => by
    cases b with
    | nil => simp at hb
    | cons w b' =>
      have hx : x = v := by simpa [lastPoint] using ha
      have hw : w = v := by simpa using hb
      subst hx
      subst hw
      simp [lineLength, hd]
  | x :: y :: rest, b, v, ha, hb => by
    have ha2 : lastPoint (y :: rest) = some v := by simpa [lastPoint] using ha
    have ih := lineLength_append d hd (y :: rest) b v ha2 hb
    simp only [List.cons_append, List.append_eq, lineLength] at ih ⊢
    rw [ih]
    ring

/-! ### Claim C9 -/

/-- C9: `normalizeSpeed` maps the string `"25 mph"` to
`25 * 1609.344 / 3600 = 11.176` meters per second (within 0.01 of
11.176), and maps every bare numeric tag value without an `" mph"` suffix
to its parsed value multiplied by 1000. -/
theorem claim_C9 :
    (normalizeSpeed (some "25 mph") = some (1397 / 125) ∧
      qabs ((1397 : ℚ) / 125 - 11176 / 1000) ≤ 1 / 100) ∧
    ∀ s : String, endsWithStr s " mph" = false → s ≠ "" →
      normalizeSpeed (some s) = (parseFloatJS s).map (fun q => q * 1000) := by
  refine ⟨⟨?_, by norm_num [qabs]⟩, ?_⟩
  · have h1 : endsWithStr "25 mph" " mph" = true := by decide
    have h2 : parseFloatJS (stringDropRight "25 mph" 4) = some 25 := by decide
    simp only [normalizeSpeed]
    rw [if_neg (by decide), if_pos h1, h2]
    norm_num
  · intro s h1 h2
    simp only [normalizeSpeed]
    rw [if_neg h2, if_neg (by simp [h1])]

/-- Witness for C9: the bare numeric value `"50"` is scaled by 1000. -/
theorem claim_C9_witness : normalizeSpeed (some "50") = some 50000 := by
  have h := claim_C9.2 "50" (by decide) (by decide)
  rw [h]
  have h2 : parseFloatJS "50" = some 50 := by decide
  rw [h2]
  norm_num

/-! ### Claim C4 -/

/-- C4: on the forward-progression line `lineC4`, which is longer than 36
meters, the linker of `index.js` measures the exit bearing between the
offsets 0 and 36 from the start of the stored line — the from-node end —
whereas the claim (and spec 4.2) places the measurement at the via-node
end, between the point 36 meters into the interior from that end and the
via-node endpoint; the two point pairs differ. -/
theorem claim_C4_eval :
    lineLength dEx lineC4 > 36 ∧
    exitBearingPoints dEx lineC4 1 = ((0, 0), (0, 36)) ∧
    specViaEndBearingPoints dEx lineC4 1 = ((64, 100), (100, 100)) ∧
    exitBearingPoints dEx lineC4 1 ≠ specViaEndBearingPoints dEx lineC4 1 := by
  have h1 : exitBearingPoints dEx lineC4 1 = ((0, 0), (0, 36)) := by
    norm_num [exitBearingPoints, lineC4, lineLength, along, lerp, qmin, qabs, dEx,
      maxLengthForTurnAngle]
  have h2 : specViaEndBearingPoints dEx lineC4 1 = ((64, 100), (100, 100)) := by
    norm_num [specViaEndBearingPoints, lineC4, lineLength, along, lerp, qmin, qabs, dEx,
      maxLengthForTurnAngle]
  refine ⟨by norm_num [lineC4, lineLength, dEx, qabs], h1, h2, ?_⟩
  rw [h1, h2]
  norm_num [Prod.ext_iff]

/-! ### Claim C5 -/

/-- C5: the linker's bearing filter in `index.js` turns the raw delta of
350 degrees (entry bearing 175, exit bearing -175) into 170 — it
subtracts 180 rather than 360 — and therefore discards the candidate,
whereas wrapping into `(-180, 180]` as the claim states (and as the
sibling revision's `wrap` computes) gives -10, well within the 30-degree
tolerance. -/
theorem claim_C5_eval :
    jsWrapDelta ((175 : ℚ) - (-175)) = 170 ∧
    bearingRemoves (jsWrapDelta ((175 : ℚ) - (-175))) = true ∧
    wrapRange ((175 : ℚ) - (-175)) (-180) 180 = -10 ∧
    bearingRemoves (wrapRange ((175 : ℚ) - (-175)) (-180) 180) = false := by
  have h1 : jsWrapDelta ((175 : ℚ) - (-175)) = 170 := by norm_num [jsWrapDelta]
  have h2 : wrapRange ((175 : ℚ) - (-175)) (-180) 180 = -10 := by
    norm_num [wrapRange, jsMod, ratTrunc]
  refine ⟨h1, ?_, h2, ?_⟩
  · rw [h1]; norm_num [bearingRemoves, qabs]
  · rw [h2]; norm_num [bearingRemoves, qabs]

/-! ### Claim C3 -/

/-- C3: counterexample.  On way `wayC3` (`turn:lanes = left|left|right`,
`change:lanes = yes|not_right|yes`) the emitted left maneuver's protection
flag is `true`, although no lane of the left bucket has
can-change-left = `false` — the leftmost lane's can-change-left is the
road-edge `undefined`, which `index.js` also counts as a restriction —
and the claim's forced-unknown exception does not apply either, so the
claim's characterization (`true` only if some lane has
can-change-left = `false`) fails. -/
theorem claim_C3_counterexample :
    getManeuvers wayC3 1 = .ok [mC3left, mC3right] ∧
    mC3left.prot = some true ∧
    bucketOf [laneC3a, laneC3b, laneC3c] "left" = [laneC3a, laneC3b] ∧
    claimSomeChangeLeftFalse [laneC3a, laneC3b] = false ∧
    claimProtExcep [laneC3a, laneC3b] = false := by decide

/-- C3 (amended): for every non-empty bucket, the protection value is
`undefined` exactly under the forced-unknown exception, and otherwise it
is `true` if and only if some lane of the bucket carries change data
whose can-change-left entry is not affirmatively `true` (i.e. `false` or
the road-edge `undefined`), and some lane carries change data whose
can-change-right entry is not affirmatively `true`. -/
theorem claim_C3_amended (bucket : List Lane) (h : bucket ≠ []) :
    protectionValue bucket =
      if protForcedUnknown bucket then none
      else some (bucket.any falsyCCL && bucket.any falsyCCR) := by
  cases bucket with
  | nil => exact absurd rfl h
  | cons lm rest =>
    obtain ⟨rm, hrm⟩ : ∃ rm, (lm :: rest).getLast? = some rm :=
      Option.isSome_iff_exists.mp (List.getLast?_isSome.mpr (by simp))
    simp only [protectionValue, protectionPost, protForcedUnknown, turnIsProtectedB,
      List.head?_cons, hrm, List.isEmpty_cons, Bool.not_false, Bool.true_and]
    by_cases hA : changeAbsent lm = true <;>
      by_cases hB : changeAbsent rm = true <;>
        by_cases hC : cclIsNone lm = true <;>
          by_cases hD : ccrIsNone rm = true <;>
            simp [hA, hB, hC, hD]

/-- Witness for the amended C3 on the concrete left bucket of `wayC3`. -/
theorem claim_C3_witness : protectionValue [laneC3a, laneC3b] = some true := by
  have h := claim_C3_amended [laneC3a, laneC3b] (by decide)
  rw [h]
  decide

/-! ### Claim C7 -/

/-- C7: on way `wayC7a` the unrecognized change tag `foo` sits on the
leftmost lane, the decoding callback returns `undefined` for it, and the
road-edge reset then subscripts `undefined` — the run crashes instead of
completing.  On `wayC7b` the unrecognized tag sits on an interior lane;
extraction completes but the lane is treated as having no change data at
all rather than as unrestricted: the emitted left maneuver's protection is
`undefined`, whereas decoding `foo` as `yes` — as the claim specifies —
would make it `false`. -/
theorem claim_C7_eval :
    getManeuvers wayC7a 1 = .error () ∧
    getManeuvers wayC7b 1 = .ok [mC7left] ∧
    mC7left.prot = none ∧
    specChangeDecode "foo" = (some true, some true) ∧
    protectionValue [⟨["left"], some (specChangeDecode "foo")⟩] = some false := by
  decide

/-! ### Claim C8 -/

/-- C8: counterexample.  The single-lane one-way `service` way `wayC8`
satisfies the claim's turn-channel heuristic (whose classification test
accepts `service` or `*_link`), yet `index.js` does not skip it — its
guard tests only `highway.includes("_link")` — and extraction produces a
maneuver from it. -/
theorem claim_C8_counterexample :
    claimTurnChannel wayC8 = true ∧
    turnChannelGuard wayC8 = .ok false ∧
    extractManeuvers [wayC8] = .ok [mC8] := by decide

/-- C8 (amended): for every way carrying a highway tag, the extraction
loop skips it as a turn channel exactly when it has an explicit turn tag
or a single lane, is one-way, and its highway classification contains
`_link` — the `service` classification alone does not trigger the
skip. -/
theorem claim_C8_amended (w : Way) (h : String) (hw : w.highway = some h) :
    turnChannelGuard w = .ok
      (if (truthyS (lookupTag w.tags "turn") = true ∨ lookupTag w.tags "lanes" = some "1") ∧
          (lookupTag w.tags "oneway" = some "yes" ∨ lookupTag w.tags "oneway" = some "-1")
        then strContains h "_link" else false) := by
  simp only [turnChannelGuard, hw]
  by_cases h1 : truthyS (lookupTag w.tags "turn") = true ∨ lookupTag w.tags "lanes" = some "1"
  · by_cases h2 : lookupTag w.tags "oneway" = some "yes" ∨ lookupTag w.tags "oneway" = some "-1"
    · rw [if_pos h1, if_pos h2, if_pos ⟨h1, h2⟩]
    · rw [if_pos h1, if_neg h2, if_neg (fun hc => h2 hc.2)]
  · rw [if_neg h1, if_neg (fun hc => h1 hc.1)]

/-- Witness for the amended C8: a single-lane one-way `tertiary_link` way
is skipped. -/
theorem claim_C8_witness : turnChannelGuard wayC8w = .ok true := by
  have h := claim_C8_amended wayC8w "tertiary_link" (by decide)
  rw [h]
  decide

/-! ### Claim C2 -/

/-- C2: counterexample.  Both maneuvers carry a defined `maxSpeed`
(`some 0` — the normalization of a `maxspeed=0` tag — and `some 10`), but
`flattenManeuver`'s merge takes the truthiness branch: `0` is falsy, so
the result is the fallback `some 10`, not the length-weighted average `5`
the claim requires for any two defined speeds. -/
theorem claim_C2_counterexample :
    mwC2r.maxSpeed.isSome = true ∧
    mwC2s.maxSpeed.isSome = true ∧
    (mergeManeuver dEx mwC2r mwC2s).maxSpeed = some 10 ∧
    (lineLength dEx mwC2r.line * 0 + lineLength dEx mwC2s.line * 10) /
        (lineLength dEx mwC2r.line + lineLength dEx mwC2s.line) = 5 ∧
    (10 : ℚ) ≠ 5 := by
  refine ⟨rfl, rfl, ?_, ?_, by norm_num⟩
  · norm_num [mergeManeuver, mwC2r, mwC2s, truthyQ, jsOrQ]
  · norm_num [mwC2r, mwC2s, lineLength, dEx, qabs]

/-- C2 (amended): merging a chain root with its single successor
concatenates the way-id and progression sequences in traversal order,
adopts the successor's via node, takes the maximum lane count, adds the
two segment lengths exactly (the segments share the via-node coordinate),
and — when both maxSpeed values are defined and non-zero — blends them as
the average weighted by the two segments' lengths. -/
theorem claim_C2_amended (d : Point → Point → ℚ) (m n : MWManeuver) (v : Point)
    (hd : ∀ p, d p p = 0) (hm : lastPoint m.line = some v)
    (hn : n.line.head? = some v)
    (hs1 : truthyQ m.maxSpeed = true) (hs2 : truthyQ n.maxSpeed = true) :
    (mergeManeuver d m n).fromWays = m.fromWays ++ n.fromWays ∧
    (mergeManeuver d m n).progressions = m.progressions ++ n.progressions ∧
    (mergeManeuver d m n).viaNode = n.viaNode ∧
    (mergeManeuver d m n).lanes = max m.lanes n.lanes ∧
    lineLength d (mergeManeuver d m n).line =
      lineLength d m.line + lineLength d n.line ∧
    (mergeManeuver d m n).maxSpeed =
      some ((lineLength d m.line * m.maxSpeed.getD 0 +
          lineLength d n.line * n.maxSpeed.getD 0) /
        (lineLength d m.line + lineLength d n.line)) := by
  refine ⟨rfl, rfl, rfl, rfl, ?_, ?_⟩
  · show lineLength d (m.line ++ n.line) = _
    exact lineLength_append d hd m.line n.line v hm hn
  · simp [mergeManeuver, hs1, hs2]

/-- Witness for the amended C2 on two concrete 100-meter segments with
speeds 5 and 10. -/
theorem claim_C2_witness :
    (mergeManeuver dEx mwC2w1 mwC2w2).maxSpeed = some (15 / 2) ∧
    lineLength dEx (mergeManeuver dEx mwC2w1 mwC2w2).line = 200 ∧
    (mergeManeuver dEx mwC2w1 mwC2w2).fromWays = [1, 2] ∧
    (mergeManeuver dEx mwC2w1 mwC2w2).viaNode = 3 ∧
    (mergeManeuver dEx mwC2w1 mwC2w2).lanes = 2 := by
  have h := claim_C2_amended dEx mwC2w1 mwC2w2 (0, 100)
    (fun p => by simp [dEx, qabs])
    rfl rfl (by norm_num [truthyQ, mwC2w1]) (by norm_num [truthyQ, mwC2w2])
  obtain ⟨-, -, -, -, hlen, hspd⟩ := h
  refine ⟨?_, ?_, rfl, rfl, rfl⟩
  · rw [hspd]
    norm_num [mwC2w1, mwC2w2, lineLength, dEx, qabs]
  · rw [hlen]
    norm_num [mwC2w1, mwC2w2, lineLength, dEx, qabs]

/-! ### Claim C10 -/

/-- C10: the linker's road-class removal dereferences
`way.tags.highway.includes("_link")` whenever the `service` disjunct
fails, so for every maneuver whose source way has no highway tag and any
candidate not classified `service` the stage crashes with a type error;
on the concrete input `waysC10` — a turn-tagged way without a highway tag
followed by a connecting residential way — the whole linker step fails
instead of completing with a diagnostic. -/
theorem claim_C10 :
    (∀ (way cw : Way) (m c : Maneuver), way.highway = none →
      cw.highway ≠ some "service" → removePred way cw m c = .error ()) ∧
    extractManeuvers waysC10 = .ok poolC10 ∧
    linkStep dEx bearEx waysC10 poolC10 mC10f = .error () := by
  refine ⟨?_, by decide, by decide⟩
  intro way cw m c hw hcw
  simp only [removePred]
  rw [if_neg (fun hc => hcw hc.2), hw]
  rfl

/-- Witness for C10: the concrete crashing removal-stage call. -/
theorem claim_C10_witness :
    removePred wayC10a wayC10b mC10f mC10r = .error () :=
  claim_C10.1 wayC10a wayC10b mC10f mC10r rfl (by decide)

/-! ### Claim C1 -/

/-- C1: counterexample.  On `waysC1` the left maneuver of way 1 has two
surviving candidates after every filter and narrowing step (both
candidates share its class and its absent name), the ambiguity assertion
fires — and the linker still sets `next` to the first surviving candidate
instead of leaving the maneuver unlinked as the claim requires. -/
theorem claim_C1_counterexample :
    extractManeuvers waysC1 = .ok poolC1 ∧
    finalCandidates dEx bearEx waysC1 poolC1 mC1a = .ok [mC1b, mC1c] ∧
    linkStep dEx bearEx waysC1 poolC1 mC1a = .ok ⟨true, some mC1b⟩ := by
  have hbear : bearingStage dEx bearEx waysC1 wayC1a mC1a [mC1b, mC1c] =
      .ok [mC1b, mC1c] := by
    norm_num [bearingStage, exitBearingPoints, entryBearingPoints, mapME, lineLength,
      along, lerp, qmin, qabs, dEx, bearEx, maxLengthForTurnAngle, jsWrapDelta,
      bearingRemoves, findWay, waysC1, wayC1a, wayC1b, wayC1c, mC1a, mC1b, mC1c,
      List.zip, List.zipWith, List.filter]
  have h1 : findWay waysC1 mC1a.fromWay = some wayC1a := by decide
  have h2 : gatherCandidates poolC1 mC1a = [mC1b, mC1c] := by decide
  have h3 : removalStage waysC1 wayC1a mC1a [mC1b, mC1c] = .ok [mC1b, mC1c] := by decide
  have h5 : classNarrow waysC1 wayC1a [mC1b, mC1c] = .ok [mC1b, mC1c] := by decide
  have h6 : nameNarrow waysC1 wayC1a mC1a [mC1b, mC1c] = .ok [mC1b, mC1c] := by decide
  have hfinal : finalCandidates dEx bearEx waysC1 poolC1 mC1a = .ok [mC1b, mC1c] := by
    simp [finalCandidates, h1, h2, h3, hbear, h5, h6]
  exact ⟨by decide, hfinal, by simp [linkStep, hfinal, Except.map]⟩

/-- C1 (amended): whenever the surviving candidate list of the linker is
`cs`, the ambiguity assertion fires exactly when `cs` has at least two
elements, and `next` is set to the first element of `cs` whenever `cs` is
non-empty — ambiguity is reported but the maneuver is still linked to the
first surviving candidate. -/
theorem claim_C1_amended (d bear : Point → Point → ℚ) (ways : List Way)
    (pool : List Maneuver) (m : Maneuver) (cs : List Maneuver)
    (h : finalCandidates d bear ways pool m = .ok cs) :
    linkStep d bear ways pool m = .ok ⟨decide (1 < cs.length), cs.head?⟩ := by
  simp [linkStep, h, Except.map]

/-- Witness for the amended C1: a maneuver whose candidate list is empty
is reported unambiguous and left unlinked. -/
theorem claim_C1_witness :
    linkStep dEx bearEx waysC1 poolC1 mC1b = .ok ⟨false, none⟩ := by
  have hfin : finalCandidates dEx bearEx waysC1 poolC1 mC1b = .ok [] := by
    have h1 : findWay waysC1 mC1b.fromWay = some wayC1b := by decide
    have h2 : gatherCandidates poolC1 mC1b = [] := by decide
    simp [finalCandidates, h1, h2, removalStage, bearingStage, classNarrow,
      nameNarrow, filterME, mapME]
  have h := claim_C1_amended dEx bearEx waysC1 poolC1 mC1b [] hfin
  simpa using h

/-! ### Claim C6 -/

/-- C6: counterexample.  On `waysC6` — two mutually connecting bent ways —
the linker links the first maneuver to the second and the second back to
the first: the produced `next` relation is a two-cycle, so following
`next` revisits a maneuver and the recursion of `flattenManeuver` cannot
terminate on any maneuver that reaches this cycle. -/
theorem claim_C6_counterexample :
    extractManeuvers waysC6 = .ok poolC6 ∧
    linkStep dEx bearEx waysC6 poolC6 mC6a = .ok ⟨false, some mC6b⟩ ∧
    linkStep dEx bearEx waysC6 poolC6 mC6b = .ok ⟨false, some mC6a⟩ ∧
    mC6a ≠ mC6b := by
  have hbearA : bearingStage dEx bearEx waysC6 wayC6a mC6a [mC6b] = .ok [mC6b] := by
    norm_num [bearingStage, exitBearingPoints, entryBearingPoints, mapME, lineLength,
      along, lerp, qmin, qabs, dEx, bearEx, maxLengthForTurnAngle, jsWrapDelta,
      bearingRemoves, findWay, waysC6, wayC6a, wayC6b, mC6a, mC6b,
      List.zip, List.zipWith, List.filter]
  have hbearB : bearingStage dEx bearEx waysC6 wayC6b mC6b [mC6a] = .ok [mC6a] := by
    norm_num [bearingStage, exitBearingPoints, entryBearingPoints, mapME, lineLength,
      along, lerp, qmin, qabs, dEx, bearEx, maxLengthForTurnAngle, jsWrapDelta,
      bearingRemoves, findWay, waysC6, wayC6a, wayC6b, mC6a, mC6b,
      List.zip, List.zipWith, List.filter]
  have hfinA : finalCandidates dEx bearEx waysC6 poolC6 mC6a = .ok [mC6b] := by
    have h1 : findWay waysC6 mC6a.fromWay = some wayC6a := by decide
    have h2 : gatherCandidates poolC6 mC6a = [mC6b] := by decide
    have h3 : removalStage waysC6 wayC6a mC6a [mC6b] = .ok [mC6b] := by decide
    have h5 : classNarrow waysC6 wayC6a [mC6b] = .ok [mC6b] := by decide
    have h6 : nameNarrow waysC6 wayC6a mC6a [mC6b] = .ok [mC6b] := by decide
    simp [finalCandidates, h1, h2, h3, hbearA, h5, h6]
  have hfinB : finalCandidates dEx bearEx waysC6 poolC6 mC6b = .ok [mC6a] := by
    have h1 : findWay waysC6 mC6b.fromWay = some wayC6b := by decide
    have h2 : gatherCandidates poolC6 mC6b = [mC6a] := by decide
    have h3 : removalStage waysC6 wayC6b mC6b [mC6a] = .ok [mC6a] := by decide
    have h5 : classNarrow waysC6 wayC6b [mC6a] = .ok [mC6a] := by decide
    have h6 : nameNarrow waysC6 wayC6b mC6b [mC6a] = .ok [mC6a] := by decide
    simp [finalCandidates, h1, h2, h3, hbearB, h5, h6]
  exact ⟨by decide, by simp [linkStep, hfinA, Except.map],
    by simp [linkStep, hfinB, Except.map], by decide⟩

/-- A repetition-free chain of naturals below `n` has length at most
`n`. -/
theorem nextChain_length_le (nxt : ℕ → Option ℕ) (n i : ℕ)
    (h1 : (nextChain nxt n i).Nodup) (h2 : ∀ j ∈ nextChain nxt n i, j < n) :
    (nextChain nxt n i).length ≤ n := by
  have hcard : (nextChain nxt n i).toFinset.card = (nextChain nxt n i).length :=
    List.toFinset_card_of_nodup h1
  have hsub : (nextChain nxt n i).toFinset ⊆ Finset.range n := by
    intro x hx
    exact Finset.mem_range.mpr (h2 x (List.mem_toFinset.mp hx))
  calc (nextChain nxt n i).length = (nextChain nxt n i).toFinset.card := hcard.symm
    _ ≤ (Finset.range n).card := Finset.card_le_card hsub
    _ = n := Finset.card_range n

/-- The fuelled flattening succeeds whenever the fuel covers the length of
the `next` chain. -/
theorem flattenFuel_ne_none (d : Point → Point → ℚ) (getM : ℕ → MWManeuver)
    (nxt : ℕ → Option ℕ) :
    ∀ (fuel i : ℕ), (nextChain nxt fuel i).length ≤ fuel →
      flattenManeuverFuel d getM nxt fuel i ≠ none
  | 0, i, h => by simp [nextChain] at h
  | fuel + 1, i, h => by
    cases hn : nxt i with
    | none =>
      rw [flattenManeuverFuel, hn]
      simp
    | some j =>
      have hlen : (nextChain nxt fuel j).length ≤ fuel := by
        simp only [nextChain, hn, List.length_cons] at h
        omega
      have ih := flattenFuel_ne_none d getM nxt fuel j hlen
      have hunf : flattenManeuverFuel d getM nxt (fuel + 1) i =
          (flattenManeuverFuel d getM nxt fuel j).map
            (fun flatNext => mergeManeuver d (getM i) flatNext) := by
        rw [flattenManeuverFuel, hn]
      rw [hunf]
      cases hf : flattenManeuverFuel d getM nxt fuel j with
      | none => exact absurd hf ih
      | some x => simp

/-- C6 (amended): the `next` relation the linker produces may be cyclic
(see the counterexample), but every repetition-free `next` chain over a
pool of `n` maneuvers has length at most `n`, and on such a chain the
recursion of `flattenManeuver` terminates — fuel `n` suffices for the
fuelled model. -/
theorem claim_C6_amended (d : Point → Point → ℚ) (getM : ℕ → MWManeuver)
    (nxt : ℕ → Option ℕ) (n i : ℕ)
    (h1 : (nextChain nxt n i).Nodup) (h2 : ∀ j ∈ nextChain nxt n i, j < n) :
    (nextChain nxt n i).length ≤ n ∧
    flattenManeuverFuel d getM nxt n i ≠ none :=
  ⟨nextChain_length_le nxt n i h1 h2,
   flattenFuel_ne_none d getM nxt n i (nextChain_length_le nxt n i h1 h2)⟩

/-- Witness for the amended C6 on a concrete acyclic two-element chain. -/
theorem claim_C6_witness :
    (nextChain nxtW 2 0).length ≤ 2 ∧
    flattenManeuverFuel dEx getW nxtW 2 0 ≠ none :=
  claim_C6_amended dEx getW nxtW 2 0 (by decide) (by decide)
